import Mathlib

/-!
Shallow embedding of `src/build/libjpeg-turbo-wasm/jpeg-decode-wrapper.c`:
a single-image JPEG-to-grayscale decoding engine built on libjpeg-turbo.

The C file keeps one global decompressor (`g_cinfo`, `g_jerr`,
`g_initialized`) and exposes four functions: `jpeg_decode_version`,
`jpeg_decode_init`, `jpeg_decode_gray`, `jpeg_decode_destroy`.  libjpeg
reports unrecoverable stream errors by calling the installed
`error_exit` callback, which in this wrapper longjmps back to the
`setjmp` recovery point of the current call.

The embedding models the global state as `DecoderState`, caller memory
as functions `Nat → Nat` (byte at an index), and the behaviour of the
underlying libjpeg codec on one particular byte stream as a
`JpegBehavior`: whether and where the codec raises a fault
(`error_exit` → longjmp), whether `jpeg_read_header` returns
`JPEG_HEADER_OK`, the header dimensions it parses, and the grayscale
pixel values `jpeg_read_scanlines` produces.  For the configuration this
wrapper uses (no scaling), libjpeg's `output_width`/`output_height`
equal `image_width`/`image_height`, so the scanline loop is modelled
with the header dimensions.
-/

namespace JpegWrapper

/-- MAX_CHUNK_DIM from the C file: maximum accepted width/height. -/
def MAX_CHUNK_DIM : Int := 4096

/-- JPEG_DECODE_VERSION from the C file. -/
def JPEG_DECODE_VERSION : Int := 1

/-- The global decoder state of the wrapper: `g_initialized`, plus a
generation counter abstracting the identity of the codec-internal
allocation performed by `jpeg_create_decompress` (it increases exactly
when a fresh decompressor object is created, so an unchanged counter
means no reallocation took place). -/
structure DecoderState where
  initialized : Bool
  codecGen : Nat
deriving DecidableEq

/-- The process state before any call: `g_initialized = 0`. -/
def freshState : DecoderState := DecoderState.mk false 0

/-- A point during `jpeg_decode_gray` at which libjpeg may raise a fault
(call `error_exit`, which longjmps to the recovery point): while
attaching the memory source, while parsing the header, in
`jpeg_start_decompress`, while reading scanline row `k` (rows `< k`
already delivered), or in `jpeg_finish_decompress`. -/
inductive FaultPoint
  | attach
  | header
  | start
  | scanline (k : Nat)
  | finish
deriving DecidableEq

/-- Behaviour of the underlying libjpeg codec on one source byte
stream: where (if anywhere) it raises a fault, whether
`jpeg_read_header` returns `JPEG_HEADER_OK`, the `image_width` and
`image_height` fields it parses (JDIMENSION, i.e. unsigned int), and
the grayscale byte `pixel r c` that `jpeg_read_scanlines` writes at row
`r`, column `c`. -/
structure JpegBehavior where
  fault : Option FaultPoint
  headerOk : Bool
  imageWidth : Nat
  imageHeight : Nat
  pixel : Nat → Nat → Nat

/-- The six conceptual outcomes of one decode call; each corresponds to
one `return` site of `jpeg_decode_gray`. -/
inductive DecodeOutcome
  | Success
  | NotReady
  | HeaderInvalid
  | DimensionOutOfRange
  | BufferTooSmall
  | CodecFault
deriving DecidableEq

/-- The C status code actually returned by `jpeg_decode_gray` for each
outcome.  Note the C file returns `-2` both when `jpeg_read_header`
fails and when the parsed dimensions are out of range. -/
def statusOf : DecodeOutcome → Int
  | .Success => 0
  | .NotReady => -1
  | .HeaderInvalid => -2
  | .DimensionOutOfRange => -2
  | .BufferTooSmall => -3
  | .CodecFault => -4

/-- C cast `(int)x` of a 32-bit unsigned value: two's-complement
wrap-around (the behaviour of the wasm32 target this file is built
for). -/
def toInt32 (n : Nat) : Int :=
  if n % 2 ^ 32 < 2 ^ 31 then ((n % 2 ^ 32 : Nat) : Int)
  else ((n % 2 ^ 32 : Nat) : Int) - 2 ^ 32

/-- Effect on the destination buffer of the scanline loop having
delivered `rows` complete rows of `width` bytes each, row `r` at byte
offset `r * width` (row stride = width, one byte per pixel). -/
def writeRows (dst : Nat → Nat) (width rows : Nat)
    (pixel : Nat → Nat → Nat) : Nat → Nat :=
  fun i => if i < rows * width then pixel (i / width) (i % width) else dst i

/-- Everything `jpeg_decode_gray` returns or mutates: its status
(as the conceptual outcome; the C int is `statusOf outcome`), the
global decoder state, the destination buffer, and the two out-parameter
slots `*outWidth`, `*outHeight`. -/
structure DecodeResult where
  outcome : DecodeOutcome
  state : DecoderState
  dst : Nat → Nat
  outWidth : Int
  outHeight : Int

/-- The decompression phase of `jpeg_decode_gray`, reached once every
gate has passed: `jpeg_start_decompress` has succeeded and the scanline
loop runs, writing row `r` at offset `r * width`, followed by
`jpeg_finish_decompress` and the out-parameter writes.  A fault at
scanline `k` fires only if the loop reaches row `k` (`k < height`);
rows before `k` have already been written when it fires.  A fault at
finish fires after all rows were written. -/
def scanlinePhase (fault : Option FaultPoint) (st : DecoderState)
    (width height : Int) (pixel : Nat → Nat → Nat)
    (dst : Nat → Nat) (outW outH : Int) : DecodeResult :=
  match fault with
  | some (.scanline k) =>
      if k < height.toNat then
        DecodeResult.mk .CodecFault st (writeRows dst width.toNat k pixel) outW outH
      else
        DecodeResult.mk .Success st (writeRows dst width.toNat height.toNat pixel)
          width height
  | some .finish =>
      DecodeResult.mk .CodecFault st (writeRows dst width.toNat height.toNat pixel)
        outW outH
  | _ =>
      DecodeResult.mk .Success st (writeRows dst width.toNat height.toNat pixel)
        width height

/-- `jpeg_decode_gray` from the C file.  `st` is the global state,
`j` the codec's behaviour on the supplied source bytes, `dstSize` the
caller-declared destination capacity, `dst` the destination buffer
contents, `outW`/`outH` the prior contents of the out-parameter slots.

Mirrors the C control flow: not-ready gate; setjmp recovery point
(a fault anywhere after it returns -4 after `jpeg_abort_decompress`);
`jpeg_mem_src`; `jpeg_read_header` check; cast of the unsigned header
dimensions to int; positivity and MAX_CHUNK_DIM gates; overflow-safe
`required = width * height` in `size_t` compared to `dstSize`;
`jpeg_start_decompress`; then the scanline loop, finish and
out-parameter writes (`scanlinePhase`). -/
def jpeg_decode_gray (st : DecoderState) (j : JpegBehavior)
    (dstSize : Nat) (dst : Nat → Nat) (outW outH : Int) : DecodeResult :=
  if !st.initialized then DecodeResult.mk .NotReady st dst outW outH
  else if j.fault = some .attach then DecodeResult.mk .CodecFault st dst outW outH
  else if j.fault = some .header then DecodeResult.mk .CodecFault st dst outW outH
  else if !j.headerOk then DecodeResult.mk .HeaderInvalid st dst outW outH
  else
    let width : Int := toInt32 j.imageWidth
    let height : Int := toInt32 j.imageHeight
    if width ≤ 0 ∨ height ≤ 0 then DecodeResult.mk .DimensionOutOfRange st dst outW outH
    else if width > MAX_CHUNK_DIM ∨ height > MAX_CHUNK_DIM then
      DecodeResult.mk .DimensionOutOfRange st dst outW outH
    else if width.toNat * height.toNat > dstSize then
      DecodeResult.mk .BufferTooSmall st dst outW outH
    else if j.fault = some .start then DecodeResult.mk .CodecFault st dst outW outH
    else scanlinePhase j.fault st width height j.pixel dst outW outH

/-- `jpeg_decode_init` from the C file.  `createFaults` says whether
the codec's `error_exit` fires during `jpeg_create_decompress` (the
only failure path of setup); in that case the function returns -1 with
`g_initialized` still 0.  If already initialized it returns 0 at once,
allocating nothing. -/
def jpeg_decode_init (createFaults : Bool) (st : DecoderState) :
    Int × DecoderState :=
  if st.initialized then (0, st)
  else if createFaults then (-1, st)
  else (0, DecoderState.mk true (st.codecGen + 1))

/-- `jpeg_decode_destroy` from the C file: releases the decompressor if
initialized, clears the flag, always returns 0. -/
def jpeg_decode_destroy (st : DecoderState) : Int × DecoderState :=
  if st.initialized then (0, DecoderState.mk false st.codecGen) else (0, st)

/-- `jpeg_decode_version` from the C file. -/
def jpeg_decode_version : Int := JPEG_DECODE_VERSION

/-- Whether the dimension and buffer-capacity gates of
`jpeg_decode_gray` all pass for behaviour `j` and capacity `dstSize`
(assuming the header parsed): positive dimensions within
MAX_CHUNK_DIM and `required ≤ dstSize`. -/
def passesGates (j : JpegBehavior) (dstSize : Nat) : Bool :=
  j.headerOk &&
  !(decide (toInt32 j.imageWidth ≤ 0) || decide (toInt32 j.imageHeight ≤ 0)) &&
  !(decide (toInt32 j.imageWidth > MAX_CHUNK_DIM) ||
    decide (toInt32 j.imageHeight > MAX_CHUNK_DIM)) &&
  !(decide ((toInt32 j.imageWidth).toNat * (toInt32 j.imageHeight).toNat > dstSize))

/-- Whether, on a ready handle, the codec fault described by `j.fault`
is actually reached (and hence fires) during `jpeg_decode_gray`: faults
at attach or header parse always fire; faults at start, finish, or at a
scanline the loop reaches fire only once every earlier gate has
passed. -/
def faultFires (j : JpegBehavior) (dstSize : Nat) : Bool :=
  match j.fault with
  | none => false
  | some .attach => true
  | some .header => true
  | some .start => passesGates j dstSize
  | some (.scanline k) =>
      passesGates j dstSize && decide (k < (toInt32 j.imageHeight).toNat)
  | some .finish => passesGates j dstSize

/-- A source byte stream on which the codec behaves well for capacity
`dstSize`: no fault anywhere, header parses, dimensions positive and
within MAX_CHUNK_DIM, and the image fits the destination. -/
def goodJpeg (j : JpegBehavior) (dstSize : Nat) : Prop :=
  j.fault = none ∧ j.headerOk = true ∧
  0 < j.imageWidth ∧ j.imageWidth ≤ 4096 ∧
  0 < j.imageHeight ∧ j.imageHeight ≤ 4096 ∧
  j.imageWidth * j.imageHeight ≤ dstSize

/-! General lemmas about the embedded operations, shared by the claim
theorems below. -/

theorem toInt32_of_small (n : Nat) (h : n < 2 ^ 31) : toInt32 n = n := by
  unfold toInt32
  have h32 : n % 2 ^ 32 = n := Nat.mod_eq_of_lt (by omega)
  rw [h32, if_pos h]

theorem scanlinePhase_state_eq (f : Option FaultPoint) (st : DecoderState)
    (width height : Int) (pixel : Nat → Nat → Nat) (dst : Nat → Nat) (outW outH : Int) :
    (scanlinePhase f st width height pixel dst outW outH).state = st := by
  rcases f with _ | pt
  · rfl
  · cases pt
    case scanline k => by_cases hk : k < height.toNat <;> simp [scanlinePhase, hk]
    all_goals rfl

theorem decode_state_eq (st : DecoderState) (j : JpegBehavior) (dstSize : Nat)
    (dst : Nat → Nat) (outW outH : Int) :
    (jpeg_decode_gray st j dstSize dst outW outH).state = st := by
  unfold jpeg_decode_gray
  dsimp only
  split_ifs <;> first | rfl | apply scanlinePhase_state_eq

theorem decode_of_not_ready (st : DecoderState) (j : JpegBehavior) (dstSize : Nat)
    (dst : Nat → Nat) (outW outH : Int) (hst : st.initialized = false) :
    jpeg_decode_gray st j dstSize dst outW outH =
      DecodeResult.mk .NotReady st dst outW outH := by
  unfold jpeg_decode_gray
  simp [hst]

theorem decode_success_of_good (st : DecoderState) (j : JpegBehavior) (dstSize : Nat)
    (dst : Nat → Nat) (outW outH : Int)
    (hst : st.initialized = true) (hg : goodJpeg j dstSize) :
    jpeg_decode_gray st j dstSize dst outW outH =
      DecodeResult.mk .Success st
        (writeRows dst j.imageWidth j.imageHeight j.pixel)
        j.imageWidth j.imageHeight := by
  obtain ⟨hf, hh, hW0, hW, hH0, hH, hcap⟩ := hg
  have hWi : toInt32 j.imageWidth = j.imageWidth := toInt32_of_small _ (by omega)
  have hHi : toInt32 j.imageHeight = j.imageHeight := toInt32_of_small _ (by omega)
  have h1 : ¬((j.imageWidth : Int) ≤ 0 ∨ (j.imageHeight : Int) ≤ 0) := by omega
  have h2 : ¬((j.imageWidth : Int) > MAX_CHUNK_DIM ∨ (j.imageHeight : Int) > MAX_CHUNK_DIM) := by
    unfold MAX_CHUNK_DIM
    omega
  have h3 : ¬(((j.imageWidth : Int)).toNat * ((j.imageHeight : Int)).toNat > dstSize) := by
    simp only [Int.toNat_natCast]
    omega
  have h4 : ¬(j.imageWidth = 0 ∨ j.imageHeight = 0) := by omega
  have h5 : ¬dstSize < j.imageWidth * j.imageHeight := by omega
  unfold jpeg_decode_gray
  simp [hst, hf, hh, hWi, hHi, h1, h2, h3, h4, h5, scanlinePhase]

theorem decode_header_invalid (st : DecoderState) (j : JpegBehavior) (dstSize : Nat)
    (dst : Nat → Nat) (outW outH : Int)
    (hst : st.initialized = true)
    (ha : j.fault ≠ some .attach) (hb : j.fault ≠ some .header)
    (hOk : j.headerOk = false) :
    jpeg_decode_gray st j dstSize dst outW outH =
      DecodeResult.mk .HeaderInvalid st dst outW outH := by
  unfold jpeg_decode_gray
  simp [hst, ha, hb, hOk]

theorem decode_dim_out_of_range (st : DecoderState) (j : JpegBehavior) (dstSize : Nat)
    (dst : Nat → Nat) (outW outH : Int)
    (hst : st.initialized = true)
    (ha : j.fault ≠ some .attach) (hb : j.fault ≠ some .header)
    (hOk : j.headerOk = true)
    (hd : toInt32 j.imageWidth ≤ 0 ∨ toInt32 j.imageHeight ≤ 0 ∨
          toInt32 j.imageWidth > MAX_CHUNK_DIM ∨ toInt32 j.imageHeight > MAX_CHUNK_DIM) :
    jpeg_decode_gray st j dstSize dst outW outH =
      DecodeResult.mk .DimensionOutOfRange st dst outW outH := by
  unfold jpeg_decode_gray
  by_cases h1 : toInt32 j.imageWidth ≤ 0 ∨ toInt32 j.imageHeight ≤ 0
  · simp [hst, ha, hb, hOk, h1]
  · have h2 : toInt32 j.imageWidth > MAX_CHUNK_DIM ∨ toInt32 j.imageHeight > MAX_CHUNK_DIM := by
      tauto
    simp [hst, ha, hb, hOk, h1, h2]

theorem decode_buffer_too_small (st : DecoderState) (j : JpegBehavior) (dstSize : Nat)
    (dst : Nat → Nat) (outW outH : Int)
    (hst : st.initialized = true)
    (ha : j.fault ≠ some .attach) (hb : j.fault ≠ some .header)
    (hOk : j.headerOk = true)
    (h1 : ¬(toInt32 j.imageWidth ≤ 0 ∨ toInt32 j.imageHeight ≤ 0))
    (h2 : ¬(toInt32 j.imageWidth > MAX_CHUNK_DIM ∨ toInt32 j.imageHeight > MAX_CHUNK_DIM))
    (h3 : (toInt32 j.imageWidth).toNat * (toInt32 j.imageHeight).toNat > dstSize) :
    jpeg_decode_gray st j dstSize dst outW outH =
      DecodeResult.mk .BufferTooSmall st dst outW outH := by
  unfold jpeg_decode_gray
  simp [hst, ha, hb, hOk, h1, h2, h3]

theorem passesGates_iff (j : JpegBehavior) (dstSize : Nat) :
    passesGates j dstSize = true ↔
      j.headerOk = true ∧
      ¬(toInt32 j.imageWidth ≤ 0 ∨ toInt32 j.imageHeight ≤ 0) ∧
      ¬(toInt32 j.imageWidth > MAX_CHUNK_DIM ∨ toInt32 j.imageHeight > MAX_CHUNK_DIM) ∧
      ¬((toInt32 j.imageWidth).toNat * (toInt32 j.imageHeight).toNat > dstSize) := by
  unfold passesGates
  simp [Bool.and_eq_true, decide_eq_true_eq, not_or]
  tauto

theorem decode_fault_of_fires (st : DecoderState) (j : JpegBehavior) (dstSize : Nat)
    (dst : Nat → Nat) (outW outH : Int)
    (hst : st.initialized = true) (hf : faultFires j dstSize = true) :
    (jpeg_decode_gray st j dstSize dst outW outH).outcome = .CodecFault ∧
    (jpeg_decode_gray st j dstSize dst outW outH).state = st ∧
    (jpeg_decode_gray st j dstSize dst outW outH).outWidth = outW ∧
    (jpeg_decode_gray st j dstSize dst outW outH).outHeight = outH := by
  rcases hfa : j.fault with _ | pt
  · rw [faultFires, hfa] at hf
    exact absurd hf (by simp)
  · cases pt
    case attach =>
      unfold jpeg_decode_gray
      simp [hst, hfa]
    case header =>
      unfold jpeg_decode_gray
      simp [hst, hfa]
    case start =>
      rw [faultFires, hfa] at hf
      obtain ⟨hOk, h1, h2, h3⟩ := (passesGates_iff j dstSize).mp hf
      unfold jpeg_decode_gray
      simp [hst, hfa, hOk, h1, h2, h3]
    case scanline k =>
      rw [faultFires, hfa] at hf
      rw [Bool.and_eq_true, decide_eq_true_eq] at hf
      obtain ⟨hg, hk⟩ := hf
      obtain ⟨hOk, h1, h2, h3⟩ := (passesGates_iff j dstSize).mp hg
      unfold jpeg_decode_gray
      simp [hst, hfa, hOk, h1, h2, h3, scanlinePhase, hk]
    case finish =>
      rw [faultFires, hfa] at hf
      obtain ⟨hOk, h1, h2, h3⟩ := (passesGates_iff j dstSize).mp hf
      unfold jpeg_decode_gray
      simp [hst, hfa, hOk, h1, h2, h3, scanlinePhase]

theorem decode_cases (st : DecoderState) (j : JpegBehavior) (dstSize : Nat)
    (dst : Nat → Nat) (outW outH : Int) :
    (∃ o, o ≠ DecodeOutcome.Success ∧
       jpeg_decode_gray st j dstSize dst outW outH =
         DecodeResult.mk o st dst outW outH) ∨
    (∃ k, k ≤ (toInt32 j.imageHeight).toNat ∧
       (toInt32 j.imageWidth).toNat * (toInt32 j.imageHeight).toNat ≤ dstSize ∧
       jpeg_decode_gray st j dstSize dst outW outH =
         DecodeResult.mk .CodecFault st
           (writeRows dst (toInt32 j.imageWidth).toNat k j.pixel) outW outH) ∨
    ((toInt32 j.imageWidth).toNat * (toInt32 j.imageHeight).toNat ≤ dstSize ∧
       jpeg_decode_gray st j dstSize dst outW outH =
         DecodeResult.mk .Success st
           (writeRows dst (toInt32 j.imageWidth).toNat (toInt32 j.imageHeight).toNat j.pixel)
           (toInt32 j.imageWidth) (toInt32 j.imageHeight)) := by
  unfold jpeg_decode_gray
  dsimp only
  split_ifs with h1 h2 h3 h4 h5 h6 h7 h8
  · exact Or.inl ⟨.NotReady, by simp, rfl⟩
  · exact Or.inl ⟨.CodecFault, by simp, rfl⟩
  · exact Or.inl ⟨.CodecFault, by simp, rfl⟩
  · exact Or.inl ⟨.HeaderInvalid, by simp, rfl⟩
  · exact Or.inl ⟨.DimensionOutOfRange, by simp, rfl⟩
  · exact Or.inl ⟨.DimensionOutOfRange, by simp, rfl⟩
  · exact Or.inl ⟨.BufferTooSmall, by simp, rfl⟩
  · exact Or.inl ⟨.CodecFault, by simp, rfl⟩
  · have hcap : (toInt32 j.imageWidth).toNat * (toInt32 j.imageHeight).toNat ≤ dstSize :=
      Nat.not_lt.mp h7
    rcases hfa : j.fault with _ | pt
    · exact Or.inr (Or.inr ⟨hcap, by simp [scanlinePhase, hfa]⟩)
    · cases pt
      · exact absurd hfa h2
      · exact absurd hfa h3
      · exact absurd hfa h8
      · rename_i k
        by_cases hk : k < (toInt32 j.imageHeight).toNat
        · exact Or.inr (Or.inl ⟨k, Nat.le_of_lt hk, hcap, by simp [scanlinePhase, hfa, hk]⟩)
        · exact Or.inr (Or.inr ⟨hcap, by simp [scanlinePhase, hfa, hk]⟩)
      · exact Or.inr (Or.inl ⟨(toInt32 j.imageHeight).toNat, Nat.le_refl _, hcap,
          by simp [scanlinePhase, hfa]⟩)

theorem decode_no_write_past_capacity (st : DecoderState) (j : JpegBehavior) (dstSize : Nat)
    (dst : Nat → Nat) (outW outH : Int) (i : Nat) (hi : dstSize ≤ i) :
    (jpeg_decode_gray st j dstSize dst outW outH).dst i = dst i := by
  rcases decode_cases st j dstSize dst outW outH with
    ⟨o, _, heq⟩ | ⟨k, hk, hcap, heq⟩ | ⟨hcap, heq⟩
  · rw [heq]
  · rw [heq]
    show writeRows dst _ k j.pixel i = dst i
    unfold writeRows
    have hle : k * (toInt32 j.imageWidth).toNat ≤ i :=
      calc k * (toInt32 j.imageWidth).toNat
          ≤ (toInt32 j.imageHeight).toNat * (toInt32 j.imageWidth).toNat :=
            Nat.mul_le_mul_right _ hk
        _ = (toInt32 j.imageWidth).toNat * (toInt32 j.imageHeight).toNat :=
            Nat.mul_comm _ _
        _ ≤ dstSize := hcap
        _ ≤ i := hi
    rw [if_neg (Nat.not_lt.mpr hle)]
  · rw [heq]
    show writeRows dst _ _ j.pixel i = dst i
    unfold writeRows
    have hle : (toInt32 j.imageHeight).toNat * (toInt32 j.imageWidth).toNat ≤ i :=
      calc (toInt32 j.imageHeight).toNat * (toInt32 j.imageWidth).toNat
          = (toInt32 j.imageWidth).toNat * (toInt32 j.imageHeight).toNat :=
            Nat.mul_comm _ _
        _ ≤ dstSize := hcap
        _ ≤ i := hi
    rw [if_neg (Nat.not_lt.mpr hle)]

/-! Concrete codec behaviours used by the witnesses below. -/

/-- A well-behaved 2 × 2 grayscale stream, pixel (r, c) = 10 r + c. -/
def jGood : JpegBehavior := JpegBehavior.mk none true 2 2 (fun r c => 10 * r + c)

/-- A stream whose header does not parse (`jpeg_read_header` does not
return `JPEG_HEADER_OK`). -/
def jBadHeader : JpegBehavior := JpegBehavior.mk none false 2 2 (fun _ _ => 0)

/-- A stream whose parsed header claims 5000 × 5000, beyond
MAX_CHUNK_DIM. -/
def jHuge : JpegBehavior := JpegBehavior.mk none true 5000 5000 (fun _ _ => 0)

/-- A 1 × 2 stream on which the codec faults while reading scanline 1,
after row 0 (pixel value 7) has already been written. -/
def jPartial : JpegBehavior := JpegBehavior.mk (some (.scanline 1)) true 1 2 (fun _ _ => 7)

/-- A stream on which the codec faults during header parsing. -/
def jHeaderFault : JpegBehavior := JpegBehavior.mk (some .header) true 2 2 (fun _ _ => 0)

/-! Claim theorems. -/

/-- C1: on a ready handle, whenever the codec raises a fault at a point
the call reaches after the recovery point is installed (input attach,
header parse, decompression start, a scanline read, or finish),
`jpeg_decode_gray` returns CodecFault (status -4) as an ordinary return
value, leaves the global decoder state unchanged (still ready), and a
subsequent decode call on the same handle is not NotReady and succeeds
on any good input. -/
theorem C1_codec_fault_recovery (st : DecoderState) (j : JpegBehavior) (dstSize : Nat)
    (dst : Nat → Nat) (outW outH : Int)
    (hst : st.initialized = true) (hf : faultFires j dstSize = true) :
    (jpeg_decode_gray st j dstSize dst outW outH).outcome = .CodecFault ∧
    statusOf (jpeg_decode_gray st j dstSize dst outW outH).outcome = -4 ∧
    (jpeg_decode_gray st j dstSize dst outW outH).state = st ∧
    (jpeg_decode_gray st j dstSize dst outW outH).state.initialized = true ∧
    (∀ (j' : JpegBehavior) (dstSize' : Nat) (dst' : Nat → Nat) (oW oH : Int),
      goodJpeg j' dstSize' →
      (jpeg_decode_gray (jpeg_decode_gray st j dstSize dst outW outH).state j' dstSize'
          dst' oW oH).outcome ≠ .NotReady ∧
      (jpeg_decode_gray (jpeg_decode_gray st j dstSize dst outW outH).state j' dstSize'
          dst' oW oH).outcome = .Success) := by
  obtain ⟨h1, h2, h3, h4⟩ := decode_fault_of_fires st j dstSize dst outW outH hst hf
  refine ⟨h1, by rw [h1]; rfl, h2, by rw [h2]; exact hst, ?_⟩
  intro j' dstSize' dst' oW oH hg
  rw [h2, decode_success_of_good st j' dstSize' dst' oW oH hst hg]
  exact ⟨by simp, rfl⟩

/-- Witness for C1: a ready handle, a stream faulting at header parse. -/
theorem C1_codec_fault_recovery_witness :
    (DecoderState.mk true 0).initialized = true ∧
    faultFires jHeaderFault 4 = true ∧
    (jpeg_decode_gray (DecoderState.mk true 0) jHeaderFault 4 (fun _ => 0) 0 0).outcome
      = .CodecFault ∧
    (jpeg_decode_gray (DecoderState.mk true 0) jHeaderFault 4 (fun _ => 0) 0 0).state.initialized
      = true :=
  have h := C1_codec_fault_recovery (DecoderState.mk true 0) jHeaderFault 4 (fun _ => 0) 0 0
    rfl (by decide)
  ⟨rfl, by decide, h.1, h.2.2.2.1⟩

/-- C2: on a ready handle, a fault-free grayscale-convertible stream of
dimensions 0 < W, H ≤ 4096 decoded into a buffer of capacity ≥ W × H
returns Success (status 0), writes W and H to the out-parameter slots,
fills exactly the first W × H destination bytes with the decoded pixels
at row stride W, and modifies no byte at index ≥ W × H. -/
theorem C2_success_contract (st : DecoderState) (j : JpegBehavior) (dstSize : Nat)
    (dst : Nat → Nat) (outW outH : Int)
    (hst : st.initialized = true)
    (hf : j.fault = none) (hh : j.headerOk = true)
    (hW0 : 0 < j.imageWidth) (hW : j.imageWidth ≤ 4096)
    (hH0 : 0 < j.imageHeight) (hH : j.imageHeight ≤ 4096)
    (hcap : j.imageWidth * j.imageHeight ≤ dstSize) :
    (jpeg_decode_gray st j dstSize dst outW outH).outcome = .Success ∧
    statusOf (jpeg_decode_gray st j dstSize dst outW outH).outcome = 0 ∧
    (jpeg_decode_gray st j dstSize dst outW outH).outWidth = j.imageWidth ∧
    (jpeg_decode_gray st j dstSize dst outW outH).outHeight = j.imageHeight ∧
    (∀ i, i < j.imageWidth * j.imageHeight →
      (jpeg_decode_gray st j dstSize dst outW outH).dst i =
        j.pixel (i / j.imageWidth) (i % j.imageWidth)) ∧
    (∀ i, j.imageWidth * j.imageHeight ≤ i →
      (jpeg_decode_gray st j dstSize dst outW outH).dst i = dst i) := by
  have h := decode_success_of_good st j dstSize dst outW outH hst
    ⟨hf, hh, hW0, hW, hH0, hH, hcap⟩
  rw [h]
  refine ⟨rfl, rfl, rfl, rfl, ?_, ?_⟩
  · intro i hi
    have hi' : i < j.imageHeight * j.imageWidth := by rw [Nat.mul_comm]; exact hi
    show writeRows dst j.imageWidth j.imageHeight j.pixel i = _
    unfold writeRows
    rw [if_pos hi']
  · intro i hi
    have hi' : j.imageHeight * j.imageWidth ≤ i := by rw [Nat.mul_comm]; exact hi
    show writeRows dst j.imageWidth j.imageHeight j.pixel i = dst i
    unfold writeRows
    rw [if_neg (Nat.not_lt.mpr hi')]

/-- Witness for C2: the 2 × 2 stream `jGood` into a 4-byte buffer. -/
theorem C2_success_contract_witness :
    (jpeg_decode_gray (DecoderState.mk true 0) jGood 4 (fun _ => 99) 0 0).outcome
        = .Success ∧
    (jpeg_decode_gray (DecoderState.mk true 0) jGood 4 (fun _ => 99) 0 0).outWidth = 2 ∧
    (jpeg_decode_gray (DecoderState.mk true 0) jGood 4 (fun _ => 99) 0 0).outHeight = 2 ∧
    (jpeg_decode_gray (DecoderState.mk true 0) jGood 4 (fun _ => 99) 0 0).dst 3 = 11 ∧
    (jpeg_decode_gray (DecoderState.mk true 0) jGood 4 (fun _ => 99) 0 0).dst 4 = 99 :=
  have h := C2_success_contract (DecoderState.mk true 0) jGood 4 (fun _ => 99) 0 0
    rfl rfl rfl (by decide) (by decide) (by decide) (by decide) (by decide)
  ⟨h.1, h.2.2.1, h.2.2.2.1, by decide, by decide⟩

/-- C5: on a ready handle, a stream whose header does not parse (and
which does not fault before or during header parsing) yields
HeaderInvalid (status -2) with state, destination and out-parameters
untouched, and a subsequent decode of any good stream on the same
handle succeeds. -/
theorem C5_header_invalid_recovery (st : DecoderState) (j : JpegBehavior) (dstSize : Nat)
    (dst : Nat → Nat) (outW outH : Int)
    (hst : st.initialized = true)
    (ha : j.fault ≠ some .attach) (hb : j.fault ≠ some .header)
    (hOk : j.headerOk = false) :
    jpeg_decode_gray st j dstSize dst outW outH =
      DecodeResult.mk .HeaderInvalid st dst outW outH ∧
    statusOf (jpeg_decode_gray st j dstSize dst outW outH).outcome = -2 ∧
    (∀ (j' : JpegBehavior) (dstSize' : Nat) (dst' : Nat → Nat) (oW oH : Int),
      goodJpeg j' dstSize' →
      (jpeg_decode_gray (jpeg_decode_gray st j dstSize dst outW outH).state j' dstSize'
          dst' oW oH).outcome = .Success) := by
  have h := decode_header_invalid st j dstSize dst outW outH hst ha hb hOk
  refine ⟨h, by rw [h]; rfl, ?_⟩
  intro j' dstSize' dst' oW oH hg
  have hstate : (jpeg_decode_gray st j dstSize dst outW outH).state = st := by rw [h]
  rw [hstate, decode_success_of_good st j' dstSize' dst' oW oH hst hg]

/-- Witness for C5: `jBadHeader` then `jGood` on the same handle. -/
theorem C5_header_invalid_recovery_witness :
    jpeg_decode_gray (DecoderState.mk true 0) jBadHeader 4 (fun _ => 0) 0 0 =
      DecodeResult.mk .HeaderInvalid (DecoderState.mk true 0) (fun _ => 0) 0 0 ∧
    (jpeg_decode_gray
        (jpeg_decode_gray (DecoderState.mk true 0) jBadHeader 4 (fun _ => 0) 0 0).state
        jGood 4 (fun _ => 9) 0 0).outcome = .Success :=
  have h := C5_header_invalid_recovery (DecoderState.mk true 0) jBadHeader 4 (fun _ => 0) 0 0
    rfl (by decide) (by decide) rfl
  ⟨h.1, h.2.2 jGood 4 (fun _ => 9) 0 0 ⟨rfl, rfl, by decide, by decide, by decide, by decide, by decide⟩⟩

/-- C3 counterexample: on the 1 × 2 stream `jPartial` the codec faults
at scanline 1; the call returns the failure outcome CodecFault, yet
destination byte 0 has been overwritten with pixel value 7 (it was 0),
so partial output is observable in the destination buffer. -/
theorem C3_atomicity_counterexample :
    (jpeg_decode_gray (DecoderState.mk true 0) jPartial 2 (fun _ => 0) 0 0).outcome
        ≠ .Success ∧
    (jpeg_decode_gray (DecoderState.mk true 0) jPartial 2 (fun _ => 0) 0 0).outcome
        = .CodecFault ∧
    (jpeg_decode_gray (DecoderState.mk true 0) jPartial 2 (fun _ => 0) 0 0).dst 0 = 7 ∧
    (fun _ => (0 : Nat)) 0 = 0 := by decide

/-- C3 (amended): every decode call either fully completes (Success,
destination fully written at row stride width) or returns a failure
outcome; every failure other than CodecFault leaves the destination
unmodified, and a CodecFault can leave at most a prefix of k ≤ height
complete rows in the destination (partial output about which the
contract promises nothing). -/
theorem C3_atomicity_amended (st : DecoderState) (j : JpegBehavior) (dstSize : Nat)
    (dst : Nat → Nat) (outW outH : Int) :
    ((jpeg_decode_gray st j dstSize dst outW outH).outcome = .Success →
      (jpeg_decode_gray st j dstSize dst outW outH).dst =
        writeRows dst (toInt32 j.imageWidth).toNat (toInt32 j.imageHeight).toNat j.pixel) ∧
    ((jpeg_decode_gray st j dstSize dst outW outH).outcome ≠ .Success →
      (jpeg_decode_gray st j dstSize dst outW outH).outcome ≠ .CodecFault →
      (jpeg_decode_gray st j dstSize dst outW outH).dst = dst) ∧
    ((jpeg_decode_gray st j dstSize dst outW outH).outcome = .CodecFault →
      ∃ k, k ≤ (toInt32 j.imageHeight).toNat ∧
        (jpeg_decode_gray st j dstSize dst outW outH).dst =
          writeRows dst (toInt32 j.imageWidth).toNat k j.pixel) := by
  rcases decode_cases st j dstSize dst outW outH with
    ⟨o, ho, heq⟩ | ⟨k, hk, _, heq⟩ | ⟨_, heq⟩ <;> rw [heq]
  · refine ⟨fun h => absurd h ho, fun _ _ => rfl, fun _ => ⟨0, Nat.zero_le _, ?_⟩⟩
    funext i
    simp [writeRows]
  · exact ⟨by simp, fun _ h => absurd rfl h, fun _ => ⟨k, hk, rfl⟩⟩
  · exact ⟨fun _ => rfl, fun h _ => absurd rfl h, by simp⟩

/-- Witness for C3 (amended), applied on the faulting stream
`jPartial`: the CodecFault branch yields a written prefix of rows. -/
theorem C3_atomicity_amended_witness :
    ∃ k, k ≤ (toInt32 jPartial.imageHeight).toNat ∧
      (jpeg_decode_gray (DecoderState.mk true 0) jPartial 2 (fun _ => 0) 0 0).dst =
        writeRows (fun _ => 0) (toInt32 jPartial.imageWidth).toNat k jPartial.pixel :=
  (C3_atomicity_amended (DecoderState.mk true 0) jPartial 2 (fun _ => 0) 0 0).2.2 (by decide)

/-- C4 counterexample: HeaderInvalid and DimensionOutOfRange are both
reachable outcomes of `jpeg_decode_gray` but the status codes it
returns for them are both -2, so the five failure outcomes are not
pairwise distinguishable in the returned status code. -/
theorem C4_status_collision_counterexample :
    (jpeg_decode_gray (DecoderState.mk true 0) jBadHeader 100 (fun _ => 0) 0 0).outcome
        = .HeaderInvalid ∧
    (jpeg_decode_gray (DecoderState.mk true 0) jHuge 100 (fun _ => 0) 0 0).outcome
        = .DimensionOutOfRange ∧
    DecodeOutcome.HeaderInvalid ≠ DecodeOutcome.DimensionOutOfRange ∧
    statusOf .HeaderInvalid = statusOf .DimensionOutOfRange := by decide

/-- C4 (amended): every decode call produces exactly one of the six
DecodeOutcome values; the status code is 0 exactly on Success, so no
failure is silently reported as success; and the status code determines
the outcome except that HeaderInvalid and DimensionOutOfRange share the
code -2. -/
theorem C4_outcome_codes_amended (st : DecoderState) (j : JpegBehavior) (dstSize : Nat)
    (dst : Nat → Nat) (outW outH : Int) :
    ((jpeg_decode_gray st j dstSize dst outW outH).outcome = .Success ∨
     (jpeg_decode_gray st j dstSize dst outW outH).outcome = .NotReady ∨
     (jpeg_decode_gray st j dstSize dst outW outH).outcome = .HeaderInvalid ∨
     (jpeg_decode_gray st j dstSize dst outW outH).outcome = .DimensionOutOfRange ∨
     (jpeg_decode_gray st j dstSize dst outW outH).outcome = .BufferTooSmall ∨
     (jpeg_decode_gray st j dstSize dst outW outH).outcome = .CodecFault) ∧
    (statusOf (jpeg_decode_gray st j dstSize dst outW outH).outcome = 0 ↔
      (jpeg_decode_gray st j dstSize dst outW outH).outcome = .Success) ∧
    (∀ o1 o2 : DecodeOutcome, statusOf o1 = statusOf o2 →
      o1 = o2 ∨ ((o1 = .HeaderInvalid ∨ o1 = .DimensionOutOfRange) ∧
                 (o2 = .HeaderInvalid ∨ o2 = .DimensionOutOfRange))) := by
  refine ⟨?_, ?_, ?_⟩
  · cases h : (jpeg_decode_gray st j dstSize dst outW outH).outcome <;> simp
  · cases h : (jpeg_decode_gray st j dstSize dst outW outH).outcome <;> simp [statusOf]
  · intro o1 o2 h
    revert h
    cases o1 <;> cases o2 <;> decide

/-- Witness for C4 (amended): the code-collision disjunction at the
pair (HeaderInvalid, DimensionOutOfRange). -/
theorem C4_outcome_codes_amended_witness :
    DecodeOutcome.HeaderInvalid = DecodeOutcome.DimensionOutOfRange ∨
    ((DecodeOutcome.HeaderInvalid = .HeaderInvalid ∨
      DecodeOutcome.HeaderInvalid = .DimensionOutOfRange) ∧
     (DecodeOutcome.DimensionOutOfRange = .HeaderInvalid ∨
      DecodeOutcome.DimensionOutOfRange = .DimensionOutOfRange)) :=
  (C4_outcome_codes_amended (DecoderState.mk true 0) jGood 4 (fun _ => 0) 0 0).2.2
    .HeaderInvalid .DimensionOutOfRange (by decide)

/-- C6: once the header and dimension gates have passed, the required
output size width × height is computed exactly (it is at most
4096 × 4096 < 2^32, so the size_t multiplication cannot wrap); if it
exceeds the declared capacity the call returns BufferTooSmall with the
destination completely unmodified; and no decode call ever modifies a
destination byte at an index ≥ the declared capacity. -/
theorem C6_buffer_guard (st : DecoderState) (j : JpegBehavior) (dstSize : Nat)
    (dst : Nat → Nat) (outW outH : Int)
    (hst : st.initialized = true)
    (ha : j.fault ≠ some .attach) (hb : j.fault ≠ some .header)
    (hOk : j.headerOk = true)
    (h1 : ¬(toInt32 j.imageWidth ≤ 0 ∨ toInt32 j.imageHeight ≤ 0))
    (h2 : ¬(toInt32 j.imageWidth > MAX_CHUNK_DIM ∨ toInt32 j.imageHeight > MAX_CHUNK_DIM)) :
    (toInt32 j.imageWidth).toNat * (toInt32 j.imageHeight).toNat < 2 ^ 32 ∧
    ((toInt32 j.imageWidth).toNat * (toInt32 j.imageHeight).toNat > dstSize →
      jpeg_decode_gray st j dstSize dst outW outH =
        DecodeResult.mk .BufferTooSmall st dst outW outH) ∧
    (∀ (st₂ : DecoderState) (j₂ : JpegBehavior) (dstSize₂ : Nat) (dst₂ : Nat → Nat)
        (oW oH : Int) (i : Nat), dstSize₂ ≤ i →
      (jpeg_decode_gray st₂ j₂ dstSize₂ dst₂ oW oH).dst i = dst₂ i) := by
  refine ⟨?_, ?_, ?_⟩
  · have hw : (toInt32 j.imageWidth).toNat ≤ 4096 := by
      unfold MAX_CHUNK_DIM at h2
      omega
    have hh : (toInt32 j.imageHeight).toNat ≤ 4096 := by
      unfold MAX_CHUNK_DIM at h2
      omega
    calc (toInt32 j.imageWidth).toNat * (toInt32 j.imageHeight).toNat
        ≤ 4096 * 4096 := Nat.mul_le_mul hw hh
      _ < 2 ^ 32 := by norm_num
  · intro h3
    exact decode_buffer_too_small st j dstSize dst outW outH hst ha hb hOk h1 h2 h3
  · intro st₂ j₂ dstSize₂ dst₂ oW oH i hi
    exact decode_no_write_past_capacity st₂ j₂ dstSize₂ dst₂ oW oH i hi

/-- Witness for C6: `jGood` (2 × 2) with a 3-byte destination returns
BufferTooSmall and leaves the buffer untouched. -/
theorem C6_buffer_guard_witness :
    jpeg_decode_gray (DecoderState.mk true 0) jGood 3 (fun _ => 5) 0 0 =
      DecodeResult.mk .BufferTooSmall (DecoderState.mk true 0) (fun _ => 5) 0 0 ∧
    (jpeg_decode_gray (DecoderState.mk true 0) jGood 3 (fun _ => 5) 0 0).dst 3 = 5 :=
  have h := C6_buffer_guard (DecoderState.mk true 0) jGood 3 (fun _ => 5) 0 0
    rfl (by decide) (by decide) rfl (by decide) (by decide)
  ⟨h.2.1 (by decide), h.2.2 (DecoderState.mk true 0) jGood 3 (fun _ => 5) 0 0 3 (by decide)⟩

/-- C7: on a ready handle, when the header parses (and the codec does
not fault before the dimension check) but the resolved width or height
is ≤ 0 or exceeds MAX_CHUNK_DIM = 4096, the call returns
DimensionOutOfRange with the destination buffer, state and
out-parameters untouched — before any pixel data is written. -/
theorem C7_dimension_gate (st : DecoderState) (j : JpegBehavior) (dstSize : Nat)
    (dst : Nat → Nat) (outW outH : Int)
    (hst : st.initialized = true)
    (ha : j.fault ≠ some .attach) (hb : j.fault ≠ some .header)
    (hOk : j.headerOk = true)
    (hd : toInt32 j.imageWidth ≤ 0 ∨ toInt32 j.imageHeight ≤ 0 ∨
          toInt32 j.imageWidth > MAX_CHUNK_DIM ∨ toInt32 j.imageHeight > MAX_CHUNK_DIM) :
    jpeg_decode_gray st j dstSize dst outW outH =
      DecodeResult.mk .DimensionOutOfRange st dst outW outH ∧
    (jpeg_decode_gray st j dstSize dst outW outH).dst = dst := by
  have h := decode_dim_out_of_range st j dstSize dst outW outH hst ha hb hOk hd
  exact ⟨h, by rw [h]⟩

/-- Witness for C7: the 5000 × 5000 header `jHuge`. -/
theorem C7_dimension_gate_witness :
    jpeg_decode_gray (DecoderState.mk true 0) jHuge 100 (fun _ => 8) 0 0 =
      DecodeResult.mk .DimensionOutOfRange (DecoderState.mk true 0) (fun _ => 8) 0 0 :=
  (C7_dimension_gate (DecoderState.mk true 0) jHuge 100 (fun _ => 8) 0 0
    rfl (by decide) (by decide) rfl (by decide)).1

/-- C8: whenever the handle is not ready — the fresh state, the state
after a failed initialize, and the state after destroy are all not
ready — decode returns NotReady (-1) with the state, the destination
buffer and the out-parameters untouched. -/
theorem C8_not_ready (st : DecoderState) (j : JpegBehavior) (dstSize : Nat)
    (dst : Nat → Nat) (outW outH : Int) (hst : st.initialized = false) :
    jpeg_decode_gray st j dstSize dst outW outH =
      DecodeResult.mk .NotReady st dst outW outH ∧
    statusOf (jpeg_decode_gray st j dstSize dst outW outH).outcome = -1 ∧
    freshState.initialized = false ∧
    (∀ st₂ : DecoderState, ((jpeg_decode_destroy st₂).2).initialized = false) ∧
    (∀ st₂ : DecoderState, st₂.initialized = false →
      (jpeg_decode_init true st₂).1 = -1 ∧
      ((jpeg_decode_init true st₂).2).initialized = false) := by
  have h := decode_of_not_ready st j dstSize dst outW outH hst
  refine ⟨h, by rw [h]; rfl, rfl, ?_, ?_⟩
  · intro st₂
    by_cases h₂ : st₂.initialized <;> simp [jpeg_decode_destroy, h₂]
  · intro st₂ h₂
    constructor <;> simp [jpeg_decode_init, h₂]

/-- Witness for C8: decode on the fresh state. -/
theorem C8_not_ready_witness :
    jpeg_decode_gray freshState jGood 4 (fun _ => 3) 7 9 =
      DecodeResult.mk .NotReady freshState (fun _ => 3) 7 9 :=
  (C8_not_ready freshState jGood 4 (fun _ => 3) 7 9 rfl).1

/-- C9: initialize is idempotent — on an already-ready handle it
returns 0 with the state (including the codec allocation generation)
unchanged, and for every state and fault environment, running
initialize on the state produced by initialize gives exactly the same
result as the single call. -/
theorem C9_init_idempotent (e : Bool) (st : DecoderState) :
    (st.initialized = true → jpeg_decode_init e st = (0, st)) ∧
    (st.initialized = true → ((jpeg_decode_init e st).2).codecGen = st.codecGen) ∧
    jpeg_decode_init e ((jpeg_decode_init e st).2) = jpeg_decode_init e st := by
  refine ⟨?_, ?_, ?_⟩
  · intro h
    simp [jpeg_decode_init, h]
  · intro h
    simp [jpeg_decode_init, h]
  · by_cases h : st.initialized
    · simp [jpeg_decode_init, h]
    · by_cases he : e <;> simp [jpeg_decode_init, h, he]

/-- Witness for C9: a ready handle with codec generation 5. -/
theorem C9_init_idempotent_witness :
    jpeg_decode_init false (DecoderState.mk true 5) = (0, DecoderState.mk true 5) :=
  (C9_init_idempotent false (DecoderState.mk true 5)).1 rfl

/-- C10: the out-parameter slots are written exactly on success — on
Success they hold the resolved width and height regardless of their
prior contents, and on every failure outcome they hold exactly their
prior contents. -/
theorem C10_out_params_frame (st : DecoderState) (j : JpegBehavior) (dstSize : Nat)
    (dst : Nat → Nat) (outW outH : Int) :
    ((jpeg_decode_gray st j dstSize dst outW outH).outcome = .Success →
      (jpeg_decode_gray st j dstSize dst outW outH).outWidth = toInt32 j.imageWidth ∧
      (jpeg_decode_gray st j dstSize dst outW outH).outHeight = toInt32 j.imageHeight) ∧
    ((jpeg_decode_gray st j dstSize dst outW outH).outcome ≠ .Success →
      (jpeg_decode_gray st j dstSize dst outW outH).outWidth = outW ∧
      (jpeg_decode_gray st j dstSize dst outW outH).outHeight = outH) := by
  rcases decode_cases st j dstSize dst outW outH with
    ⟨o, ho, heq⟩ | ⟨k, _, _, heq⟩ | ⟨_, heq⟩ <;> rw [heq]
  · exact ⟨fun h => absurd h ho, fun _ => ⟨rfl, rfl⟩⟩
  · exact ⟨by simp, fun _ => ⟨rfl, rfl⟩⟩
  · exact ⟨fun _ => ⟨rfl, rfl⟩, by simp⟩

/-- Witness for C10: a failed decode (bad header) with sentinel values
42 and 43 in the out-parameter slots leaves them unchanged. -/
theorem C10_out_params_frame_witness :
    (jpeg_decode_gray (DecoderState.mk true 0) jBadHeader 4 (fun _ => 0) 42 43).outWidth
        = 42 ∧
    (jpeg_decode_gray (DecoderState.mk true 0) jBadHeader 4 (fun _ => 0) 42 43).outHeight
        = 43 :=
  (C10_out_params_frame (DecoderState.mk true 0) jBadHeader 4 (fun _ => 0) 42 43).2
    (by decide)

end JpegWrapper
